import Mathlib

/-!
Verification of the multi-tenant access-control and request-routing layer of
the `file-search-gemini` FastAPI backend (`app/main.py`).

The embedding translates the route handlers and helpers of `app/main.py`
directly.  The external collaborators that live outside the provided source
(`app.core.FileSearchManager`, `app.prompts.PromptManager`,
`app.api_keys.APIKeyManager`, and the Gemini RAG provider itself) are
modelled from the design document, as marked on each such definition.

Machine-level details that the claims do not touch (logging, CORS, file
upload staging) are not modelled.  Python dictionaries are modelled as
association lists, and object identity of the lazily created
`FileSearchManager` instances is modelled by a numeric identity tag
allocated from a monotone counter in the application state.
-/

/-- Decides whether the character list `p ++ ...` starts the second list:
`leadsWith p l` is true when `p` is an initial segment of `l`. -/
def leadsWith : List Char → List Char → Bool
  | [], _ => true
  | _ :: _, [] => false
  | p :: ps, c :: cs => p == c && leadsWith ps cs

/-- Occurrence of `pat` as a contiguous segment somewhere in the list. -/
def occursIn (pat : List Char) : List Char → Bool
  | [] => leadsWith pat []
  | c :: cs => leadsWith pat (c :: cs) || occursIn pat cs

/-- The Python substring test `pat in s`. -/
def strContains (s pat : String) : Bool := occursIn pat.data s.data

/-- The Python string slice `s[n:]` (drop the first `n` characters). -/
def strDropChars (s : String) (n : Nat) : String := ⟨s.data.drop n⟩

/-- The Python string slice `s[:n]` (keep the first `n` characters). -/
def strTakeChars (s : String) (n : Nat) : String := ⟨s.data.take n⟩

/-- One message of the OpenAI-compatible conversation payload
(`OpenAIChatMessage` in `app/main.py`). -/
structure OpenAIChatMessage where
  role : String
  content : String
deriving DecidableEq

/-- Body of `POST /v1/chat/completions` (`OpenAIChatRequest` in
`app/main.py`); the `temperature` / `max_tokens` / `stream` fields are
never read by the handler and are omitted. -/
structure OpenAIChatRequest where
  model : String
  messages : List OpenAIChatMessage
deriving DecidableEq

/-- One choice of the response envelope (`OpenAIChatChoice`). -/
structure OpenAIChatChoice where
  index : Nat
  message : OpenAIChatMessage
  finish_reason : String
deriving DecidableEq

/-- The `usage` dictionary of the response envelope, with the three token
counters the handler emits. -/
structure OpenAIUsage where
  prompt_tokens : Nat
  completion_tokens : Nat
  total_tokens : Nat
deriving DecidableEq

/-- Response envelope of the completions endpoint (`OpenAIChatResponse`). -/
structure OpenAIChatResponse where
  id : String
  object : String
  created : Nat
  model : String
  choices : List OpenAIChatChoice
  usage : OpenAIUsage
deriving DecidableEq

/-- A `fastapi.HTTPException` as surfaced to the client: status code and
detail message. -/
structure HTTPError where
  status : Nat
  detail : String
deriving DecidableEq

/-- Modelled from the spec: a Prompt Record of the Prompt Registry
(`app.prompts`, not under the provided source): id, owning store, name and
instruction content. -/
structure Prompt where
  id : String
  store_name : String
  name : String
  content : String
deriving DecidableEq

/-- Modelled from the spec: the Prompt Registry collaborator
(`app.prompts.PromptManager`, not under the provided source).
`prompts s` is `list_prompts(s)`, the prompt list of the store in creation
order (the addressable index space of `prompt_index`); `active s` is
`get_active_prompt(s)`, the at-most-one active prompt of the store. -/
structure PromptManager where
  prompts : String → List Prompt
  active : String → Option Prompt

/-- Modelled from the spec: a Credential Record (`app.api_keys`, not under
the provided source).  Only the hash and display prefix of the raw secret
persist.  `key_pfx` is the `key_prefix` field of the record (renamed here). -/
structure APIKeyRecord where
  id : String
  key_hash : String
  key_pfx : String
  name : String
  store_name : String
  prompt_index : Option Int
  created_at : String
  last_used_at : Option String
deriving DecidableEq

/-- Modelled from the spec: the Credential Store plus Secret Hasher
(`app.api_keys.APIKeyManager`, not under the provided source): the issued
records and the one-way hash used to key them. -/
structure APIKeyManager where
  keys : List APIKeyRecord
  hash : String → String

/-- Modelled from the spec: `create_key(name, store_name, prompt_index)`.
The random secret generation, the fresh id and the clock are modelled by
passing the generated values (`new_id`, `raw`, `created_at`) as inputs.
Only the hash and an 8-character display prefix of `raw` are persisted;
the plaintext `raw` is returned alongside the record. -/
def APIKeyManager.create_key (akm : APIKeyManager) (name store_name : String)
    (prompt_index : Option Int) (new_id raw created_at : String) :
    APIKeyRecord × String × APIKeyManager :=
  let k : APIKeyRecord :=
    ⟨new_id, akm.hash raw, strTakeChars raw 8, name, store_name, prompt_index,
      created_at, none⟩
  (k, raw, ⟨akm.keys ++ [k], akm.hash⟩)

/-- Modelled from the spec: `list_keys(store_name?)`, the issued records in
creation order, optionally filtered by bound store. -/
def APIKeyManager.list_keys (akm : APIKeyManager) (store_name : Option String) :
    List APIKeyRecord :=
  match store_name with
  | none => akm.keys
  | some s => akm.keys.filter (fun k => k.store_name == s)

/-- Modelled from the spec: `get_key(key_id)`, lookup by record id. -/
def APIKeyManager.get_key (akm : APIKeyManager) (key_id : String) :
    Option APIKeyRecord :=
  akm.keys.find? (fun k => k.id == key_id)

/-- Modelled from the spec: `verify_key(raw)` hashes the presented secret
and looks the digest up among the issued records; a miss is the `None`
outcome, never an exception.  The advisory `last_used_at` bump is not
modelled (no claim depends on it). -/
def APIKeyManager.verify_key (akm : APIKeyManager) (raw : String) :
    Option APIKeyRecord :=
  akm.keys.find? (fun k => k.key_hash == akm.hash raw)

/-- A per-tenant execution context (`app.core.FileSearchManager`).  The
class itself is not under the provided source; for the routing claims only
its identity matters, so it is modelled as an identity tag (`mid`,
allocated fresh at construction, standing for Python object identity)
together with the Gemini key it was constructed with (`none` for the
default manager built from the environment). -/
structure FileSearchManager where
  mid : Nat
  api_key : Option String
deriving DecidableEq

/-- The module-level mutable globals of `app/main.py` that the Session
Router touches: the default `manager`, the `user_managers` session dict
(an association list keyed by the hash of the secret), and the monotone counter
that allocates identity tags for newly constructed managers. -/
structure AppState where
  manager : Option FileSearchManager
  user_managers : List (String × FileSearchManager)
  next_id : Nat
deriving DecidableEq

/-- Python dict lookup on the association-list model: the value stored
under `k`, if any. -/
def lookupStr (k : String) : List (String × FileSearchManager) → Option FileSearchManager
  | [] => none
  | (k2, v) :: rest => if k = k2 then some v else lookupStr k rest

/-- `_get_or_create_manager(user_api_key)` from `app/main.py`.  `hash` is
`hashlib.sha256(...).hexdigest()` (the Secret Hasher, kept abstract);
`ctorErr` models the `FileSearchManager(api_key=...)` constructor from the
spec: `none` when construction succeeds, `some msg` when it raises
`ValueError(msg)` (invalid upstream credential).  The second component of
the result is the state of the globals after the call: the cache gains an
entry only on successful construction. -/
def _get_or_create_manager (hash : String → String)
    (ctorErr : String → Option String) (st : AppState)
    (user_api_key : Option String) :
    Except HTTPError FileSearchManager × AppState :=
  match user_api_key with
  | none =>
    match st.manager with
    | none => (.error ⟨500, "未設定 API Key"⟩, st)
    | some m => (.ok m, st)
  | some key =>
    let session_id := hash key
    match lookupStr session_id st.user_managers with
    | some m => (.ok m, st)
    | none =>
      match ctorErr key with
      | none =>
        let m : FileSearchManager := ⟨st.next_id, some key⟩
        (.ok m, ⟨st.manager, (session_id, m) :: st.user_managers, st.next_id + 1⟩)
      | some e => (.error ⟨400, "無效的 API Key: " ++ e⟩, st)

/-- `_extract_bearer_token(request)` from `app/main.py`: the token after a
`Bearer ` marker in the Authorization header. -/
def _extract_bearer_token (auth_header : String) : Option String :=
  if leadsWith "Bearer ".data auth_header.data then
    some (strDropChars auth_header 7)
  else none

/-- `_get_system_prompt(api_key_info, store_name, messages)` from
`app/main.py`: the prompt-resolution priority chain.  `prompt_manager` is
the module global (left `none` when startup failed to build it). -/
def _get_system_prompt (prompt_manager : Option PromptManager)
    (api_key_info : Option APIKeyRecord) (store_name : String)
    (messages : List OpenAIChatMessage) : Option String :=
  match (messages.filter (fun m => m.role == "system")).getLast? with
  | some m => some m.content
  | none =>
    match prompt_manager with
    | none => none
    | some pm =>
      let fromIdx : Option String :=
        match api_key_info with
        | none => none
        | some info =>
          match info.prompt_index with
          | none => none
          | some idx =>
            let prompts := pm.prompts store_name
            if 0 ≤ idx ∧ idx < (prompts.length : Int) then
              (prompts[idx.toNat]?).map (fun p => p.content)
            else none
      match fromIdx with
      | some s => some s
      | none => (pm.active store_name).map (fun p => p.content)

/-- The Prompt Resolver priority chain exactly as §4.4 of the design
document words it, for comparison with `_get_system_prompt`: (1) an inline
instruction supplied with the request wins unconditionally; (2) else a
credential-carried selector index that is in range of the current store
prompt list picks the prompt at that index; (3) else the active store
prompt if set; (4) else none. -/
def resolveSpec (pm : PromptManager) (api_key_info : Option APIKeyRecord)
    (store : String) (messages : List OpenAIChatMessage) : Option String :=
  match (messages.filter (fun m => m.role == "system")).getLast? with
  | some m => some m.content
  | none =>
    match api_key_info.bind (fun i => i.prompt_index) with
    | some idx =>
      if h : 0 ≤ idx ∧ idx.toNat < (pm.prompts store).length then
        some (((pm.prompts store).get ⟨idx.toNat, h.2⟩).content)
      else
        (pm.active store).map (fun p => p.content)
    | none => (pm.active store).map (fun p => p.content)

/-- The fixed allow-list `SUPPORTED_MODELS` from `app/main.py`. -/
def SUPPORTED_MODELS : List String :=
  ["gemini-2.5-flash-lite", "gemini-3-flash-preview", "gemini-3-pro-preview"]

/-- The substitution warning text built by the completions handler when the
requested model is not in the allow-list (the `\x27` escapes are the
single quotes of the f-string). -/
def substitutionWarning (requested default_model : String) : String :=
  "不支援的模型 \x27" ++ requested ++ "\x27，已改用預設模型 \x27" ++
    default_model ++ "\x27。支援的模型: " ++
    String.intercalate ", " SUPPORTED_MODELS

/-- A Python exception escaping a provider call: a
`google.genai.errors.ClientError` or any other exception, with its
`str(e)` text. -/
inductive PyExc where
  | clientError (msg : String)
  | otherExc (msg : String)
deriving DecidableEq

/-- `str(e)` of a provider exception. -/
def PyExc.text : PyExc → String
  | .clientError m => m
  | .otherExc m => m

/-- Outcome of one call into the external RAG collaborator. -/
inductive QueryOutcome where
  | ok (text : String)
  | raises (e : PyExc)
deriving DecidableEq

/-- One `FileSearchManager.query(...)` call as issued by a route handler:
which manager instance ran it, and with which arguments.  `model = none`
stands for the default-model call of `/api/query`. -/
structure QueryCall where
  managerId : Nat
  store_name : String
  question : String
  system_instruction : Option String
  model : Option String
deriving DecidableEq

/-- `gemini_client_error_handler` from `app/main.py`: the app-level
response for a `ClientError` that reaches FastAPI, keyed off the
exception text. -/
def gemini_client_error_response (error_msg : String) : HTTPError :=
  if strContains error_msg "RESOURCE_EXHAUSTED" || strContains error_msg "429" then
    ⟨429, "目前使用量已達上限 (429)，請稍後再試。"⟩
  else
    ⟨400, error_msg⟩

/-- The ambient state a `/v1/chat/completions` request runs against: the
router globals (`st`), the `api_key_manager` and `prompt_manager` globals,
`DEFAULT_MODEL` (environment-dependent, so kept a parameter), the
`uuid4().hex` and `int(time.time())` draws of this request, and the
external RAG collaborator. -/
structure CompletionsEnv where
  st : AppState
  api_key_manager : Option APIKeyManager
  prompt_manager : Option PromptManager
  default_model : String
  uuid_hex : String
  now : Nat
  provider : QueryCall → QueryOutcome

/-- The straight-line part of `openai_chat_completions` before the provider
call: guard checks, bearer authentication, last-user-message selection,
prompt resolution and model validation.  Returns the provider call it is
about to issue, the substitution warning (if any) and the `model_name`
echoed in the envelope.  Note the query always runs on the global default
`manager` (`env.st.manager`); the session cache is not consulted here. -/
def completions_plan (env : CompletionsEnv) (req : OpenAIChatRequest)
    (auth_header : String) :
    Except HTTPError (QueryCall × Option String × String) :=
  match env.st.manager with
  | none => .error ⟨500, "未設定 Gemini API Key"⟩
  | some mgr =>
    match env.api_key_manager with
    | none => .error ⟨500, "API Key Manager 未初始化"⟩
    | some akm =>
      match _extract_bearer_token auth_header with
      | none => .error ⟨401, "缺少 Authorization header"⟩
      | some token =>
        match akm.verify_key token with
        | none => .error ⟨401, "無效的 API Key"⟩
        | some info =>
          let store_name := info.store_name
          match (req.messages.filter (fun m => m.role == "user")).getLast? with
          | none => .error ⟨400, "沒有找到用戶消息"⟩
          | some last_message =>
            let system_prompt :=
              _get_system_prompt env.prompt_manager (some info) store_name req.messages
            let (model_name, warning) :=
              if req.model ∈ SUPPORTED_MODELS then (req.model, none)
              else (env.default_model,
                some (substitutionWarning req.model env.default_model))
            .ok (⟨mgr.mid, store_name, last_message.content, system_prompt,
                  some model_name⟩, warning, model_name)

/-- The answer text assembled by the completions handler: the warning
prefixed with the warning marker when a substitution happened, the provider
text unchanged otherwise. -/
def warnPrefixed (warning : Option String) (text : String) : String :=
  match warning with
  | some w => "⚠️ " ++ w ++ "\n\n" ++ text
  | none => text

/-- `openai_chat_completions` from `app/main.py`.  The provider call sits
inside `try ... except Exception`, so every exception it raises — the
rate-limit `ClientError` included — is re-raised as
`HTTPException(500, str(e))` and never reaches the app-level
`ClientError` handler.  On success the envelope carries a generated id,
the timestamp, the model actually used, the (possibly warning-prefixed)
answer, and hard-zero usage counters. -/
def openai_chat_completions (env : CompletionsEnv) (req : OpenAIChatRequest)
    (auth_header : String) : Except HTTPError OpenAIChatResponse :=
  match completions_plan env req auth_header with
  | .error e => .error e
  | .ok (call, warning, model_name) =>
    match env.provider call with
    | .raises e => .error ⟨500, e.text⟩
    | .ok text =>
      let answer_text := warnPrefixed warning text
      .ok ⟨"chatcmpl-" ++ strTakeChars env.uuid_hex 8, "chat.completion",
        env.now, model_name,
        [⟨0, ⟨"assistant", answer_text⟩, "stop"⟩],
        ⟨0, 0, 0⟩⟩

/-- The router-plus-call prefix of the `/api/query` handler: the manager
selected by `_get_or_create_manager` for the `x-gemini-api-key` header and
the query call it will issue on it. -/
def query_endpoint_call (hash : String → String)
    (ctorErr : String → Option String) (st : AppState)
    (x_gemini_api_key : Option String) (store_name question : String) :
    Except HTTPError QueryCall × AppState :=
  match _get_or_create_manager hash ctorErr st x_gemini_api_key with
  | (.error e, st1) => (.error e, st1)
  | (.ok mgr, st1) => (.ok ⟨mgr.mid, store_name, question, none, none⟩, st1)

/-- The `/api/query` handler.  It has no `try` block, so a `ClientError`
escaping the provider propagates to `gemini_client_error_handler`, and any
other exception becomes the generic FastAPI 500. -/
def query_endpoint (hash : String → String)
    (ctorErr : String → Option String)
    (provider : QueryCall → QueryOutcome) (st : AppState)
    (x_gemini_api_key : Option String) (store_name question : String) :
    Except HTTPError String × AppState :=
  match query_endpoint_call hash ctorErr st x_gemini_api_key store_name question with
  | (.error e, st1) => (.error e, st1)
  | (.ok call, st1) =>
    match provider call with
    | .ok text => (.ok text, st1)
    | .raises (.clientError msg) => (.error (gemini_client_error_response msg), st1)
    | .raises (.otherExc msg) => (.error ⟨500, msg⟩, st1)

/-- A JSON-ish value as emitted in a response dictionary. -/
inductive JVal where
  | str (s : String)
  | int (n : Int)
  | nullv
deriving DecidableEq

/-- `Optional[int]` serialized into a response field. -/
def jOptInt : Option Int → JVal
  | none => .nullv
  | some n => .int n

/-- `Optional[str]` serialized into a response field. -/
def jOptStr : Option String → JVal
  | none => .nullv
  | some s => .str s

/-- The per-record dictionary built by both `list_api_keys` and
`get_api_key` in `app/main.py`: id, prefix and metadata only — neither a
`key` nor a `key_hash` field. -/
def keyListingFields (k : APIKeyRecord) : List (String × JVal) :=
  [("id", .str k.id), ("key_prefix", .str k.key_pfx), ("name", .str k.name),
   ("store_name", .str k.store_name), ("prompt_index", jOptInt k.prompt_index),
   ("created_at", .str k.created_at), ("last_used_at", jOptStr k.last_used_at)]

/-- `GET /api/keys` from `app/main.py` (the initialized-manager guard is
taken as satisfied by passing the manager directly). -/
def list_api_keys (akm : APIKeyManager) (store_name : Option String) :
    List (List (String × JVal)) :=
  (akm.list_keys store_name).map keyListingFields

/-- `POST /api/keys` from `app/main.py`: creates the record and returns the
one response that carries the plaintext secret, under the `key` field. -/
def create_api_key (akm : APIKeyManager) (name store_name : String)
    (prompt_index : Option Int) (new_id raw created_at : String) :
    List (String × JVal) × APIKeyManager :=
  let (k, raw_key, akm1) :=
    akm.create_key name store_name prompt_index new_id raw created_at
  ([("id", .str k.id), ("key", .str raw_key), ("key_prefix", .str k.key_pfx),
    ("name", .str k.name), ("store_name", .str k.store_name),
    ("prompt_index", jOptInt k.prompt_index),
    ("message", .str "請妥善保存此 API Key，之後無法再次查看完整金鑰")], akm1)

/-- `GET /api/keys/id` from `app/main.py`: 404 on a miss, otherwise the
same public field set as the listing. -/
def get_api_key (akm : APIKeyManager) (key_id : String) :
    Except HTTPError (List (String × JVal)) :=
  match akm.get_key key_id with
  | none => .error ⟨404, "API Key 不存在"⟩
  | some k => .ok (keyListingFields k)

/- Concrete evaluations of the resolver on the §8 scenario of the design
document: active prompt, selector-bound credential, inline instruction. -/
section ResolverEvaluations

/-- A prompt of store `s` with content `c` (evaluation fixture). -/
def pX (c : String) : Prompt := ⟨"p-" ++ c, "s", "n-" ++ c, c⟩

/-- A registry with two prompts and an active prompt on store `s`
(evaluation fixture). -/
def pmX : PromptManager :=
  ⟨fun s => if s = "s" then [pX "A", pX "B"] else [], fun s => if s = "s" then some (pX "ACT") else none⟩

/-- A credential bound to store `s` with the given selector (evaluation
fixture). -/
def infoX (idx : Option Int) : APIKeyRecord :=
  ⟨"k1", "h1", "sk-1", "demo", "s", idx, "t0", none⟩

example :  -- inline wins
    _get_system_prompt (some pmX) (some (infoX (some 1))) "s"
      [⟨"system", "I3"⟩, ⟨"user", "q"⟩] = some "I3" := by decide
example :  -- selector next
    _get_system_prompt (some pmX) (some (infoX (some 1))) "s" [⟨"user", "q"⟩] = some "B" := by decide
example :  -- out-of-range selector falls back to active
    _get_system_prompt (some pmX) (some (infoX (some 5))) "s" [⟨"user", "q"⟩] = some "ACT" := by decide
example :  -- negative selector falls back to active
    _get_system_prompt (some pmX) (some (infoX (some (-1)))) "s" [⟨"user", "q"⟩] = some "ACT" := by decide
example :  -- no selector: active
    _get_system_prompt (some pmX) (some (infoX none)) "s" [⟨"user", "q"⟩] = some "ACT" := by decide
example :  -- nothing at all
    _get_system_prompt (some pmX) (some (infoX none)) "other" [⟨"user", "q"⟩] = none := by decide

end ResolverEvaluations

/-- Claim C1: for every completions request the resolved system instruction
follows the strict priority chain of §4.4 — inline system message first,
else an in-range credential selector, else the active prompt of the store, else
none: `_get_system_prompt` coincides with the chain `resolveSpec` written
from the wording of the spec, for every registry state, credential scope, store
and message list. -/
theorem c1_prompt_chain (pm : PromptManager) (info : Option APIKeyRecord)
    (store : String) (messages : List OpenAIChatMessage) :
    _get_system_prompt (some pm) info store messages =
      resolveSpec pm info store messages := by
  unfold _get_system_prompt resolveSpec
  cases (messages.filter (fun m => m.role == "system")).getLast? with
  | some m => rfl
  | none =>
    cases info with
    | none => rfl
    | some i =>
      cases hpi : i.prompt_index with
      | none => simp [hpi]
      | some idx =>
        simp only [Option.bind, hpi]
        by_cases h0 : 0 ≤ idx ∧ idx < ((pm.prompts store).length : Int)
        · have hn : idx.toNat < (pm.prompts store).length := by omega
          rw [if_pos h0, dif_pos ⟨h0.1, hn⟩]
          simp [List.getElem?_eq_getElem hn]
        · have hn' : ¬(0 ≤ idx ∧ idx.toNat < (pm.prompts store).length) := by omega
          rw [if_neg h0, dif_neg hn']

/-- A successful dict lookup exhibits a stored entry. -/
theorem lookupStr_mem {l : List (String × FileSearchManager)} {k : String}
    {v : FileSearchManager} (h : lookupStr k l = some v) : (k, v) ∈ l := by
  induction l with
  | nil => simp [lookupStr] at h
  | cons p rest ih =>
    rcases p with ⟨k2, v2⟩
    simp only [lookupStr] at h
    split at h
    · next hk => cases h; subst hk; exact List.mem_cons_self _ _
    · next hk => exact List.mem_cons_of_mem _ (ih h)

/-- Cache hit: the router answers out of the cache and leaves every global
untouched. -/
theorem gocm_hit (hash : String → String) (ctorErr : String → Option String)
    (st : AppState) (s : String) (m : FileSearchManager)
    (h : lookupStr (hash s) st.user_managers = some m) :
    _get_or_create_manager hash ctorErr st (some s) = (.ok m, st) := by
  unfold _get_or_create_manager
  dsimp only
  rw [h]

/-- Cache miss with a succeeding constructor: a fresh manager is built and
cached under the hash of the secret. -/
theorem gocm_miss_ok (hash : String → String) (ctorErr : String → Option String)
    (st : AppState) (s : String)
    (h : lookupStr (hash s) st.user_managers = none) (hc : ctorErr s = none) :
    _get_or_create_manager hash ctorErr st (some s) =
      (.ok ⟨st.next_id, some s⟩,
       ⟨st.manager, (hash s, ⟨st.next_id, some s⟩) :: st.user_managers,
        st.next_id + 1⟩) := by
  unfold _get_or_create_manager
  dsimp only
  rw [h, hc]

/-- Cache miss with a failing constructor: the 400 invalid-key error is
raised and the globals are left exactly as they were. -/
theorem gocm_miss_err (hash : String → String) (ctorErr : String → Option String)
    (st : AppState) (s e : String)
    (h : lookupStr (hash s) st.user_managers = none) (hc : ctorErr s = some e) :
    _get_or_create_manager hash ctorErr st (some s) =
      (.error ⟨400, "無效的 API Key: " ++ e⟩, st) := by
  unfold _get_or_create_manager
  dsimp only
  rw [h, hc]

/-- Invariant of the router globals: the identity tag of every cached manager is
below the allocation counter, and distinct cache entries hold managers
with distinct identity tags (distinct objects). -/
def RouterWf (st : AppState) : Prop :=
  (∀ p ∈ st.user_managers, p.2.mid < st.next_id) ∧
  List.Pairwise (fun a b : String × FileSearchManager => a.2.mid ≠ b.2.mid)
    st.user_managers

/-- Claim C2: two requests presenting the same raw secret get the identical
cached execution context — the first successful resolution caches `m1`
under the hash of the secret, a repeat call returns the very same `m1` with the
globals unchanged — and two requests presenting distinct secrets (under an
injective hash, the Secret Hasher contract) never get the same object. -/
theorem c2_session_identity (hash : String → String)
    (ctorErr : String → Option String) (st : AppState) (s1 s2 : String)
    (m1 : FileSearchManager) (st1 : AppState)
    (hwf : RouterWf st) (hinj : Function.Injective hash)
    (h1 : _get_or_create_manager hash ctorErr st (some s1) = (.ok m1, st1)) :
    lookupStr (hash s1) st1.user_managers = some m1 ∧
    _get_or_create_manager hash ctorErr st1 (some s1) = (.ok m1, st1) ∧
    (s1 ≠ s2 → ∀ m2 st2,
      _get_or_create_manager hash ctorErr st1 (some s2) = (.ok m2, st2) →
      m1 ≠ m2) := by
  obtain ⟨hbound, hpw⟩ := hwf
  have hsym : Symmetric (fun a b : String × FileSearchManager => a.2.mid ≠ b.2.mid) :=
    fun a b h => h.symm
  cases hl1 : lookupStr (hash s1) st.user_managers with
  | some m =>
    rw [gocm_hit hash ctorErr st s1 m hl1] at h1
    injection h1 with h1a h1b
    injection h1a with h1c
    subst h1c h1b
    refine ⟨hl1, gocm_hit hash ctorErr st s1 m hl1, ?_⟩
    intro hne m2 st2 h2
    have hh : hash s1 ≠ hash s2 := fun he => hne (hinj he)
    cases hl2 : lookupStr (hash s2) st.user_managers with
    | some m2x =>
      rw [gocm_hit hash ctorErr st s2 m2x hl2] at h2
      injection h2 with h2a h2b
      injection h2a with h2c
      subst h2c
      have e1 : (hash s1, m) ∈ st.user_managers := lookupStr_mem hl1
      have e2 : (hash s2, m2x) ∈ st.user_managers := lookupStr_mem hl2
      have hne12 : (hash s1, m) ≠ (hash s2, m2x) :=
        fun he => hh (congrArg Prod.fst he)
      have hmid : m.mid ≠ m2x.mid :=
        List.Pairwise.forall hsym hpw e1 e2 hne12
      exact fun he => hmid (congrArg FileSearchManager.mid he)
    | none =>
      cases hc2 : ctorErr s2 with
      | none =>
        rw [gocm_miss_ok hash ctorErr st s2 hl2 hc2] at h2
        injection h2 with h2a h2b
        injection h2a with h2c
        subst h2c
        have hmid : m.mid < st.next_id := hbound (hash s1, m) (lookupStr_mem hl1)
        intro he
        rw [he] at hmid
        simp at hmid
      | some e =>
        rw [gocm_miss_err hash ctorErr st s2 e hl2 hc2] at h2
        exact absurd h2 (by simp)
  | none =>
    cases hc1 : ctorErr s1 with
    | some e =>
      rw [gocm_miss_err hash ctorErr st s1 e hl1 hc1] at h1
      exact absurd h1 (by simp)
    | none =>
      rw [gocm_miss_ok hash ctorErr st s1 hl1 hc1] at h1
      injection h1 with h1a h1b
      injection h1a with h1c
      subst h1c h1b
      have hhead : lookupStr (hash s1)
          ((hash s1, (⟨st.next_id, some s1⟩ : FileSearchManager)) :: st.user_managers) =
          some ⟨st.next_id, some s1⟩ := by
        simp [lookupStr]
      refine ⟨hhead, gocm_hit hash ctorErr _ s1 _ hhead, ?_⟩
      intro hne m2 st2 h2
      have hh : hash s1 ≠ hash s2 := fun he => hne (hinj he)
      have hstep : lookupStr (hash s2)
          ((hash s1, (⟨st.next_id, some s1⟩ : FileSearchManager)) :: st.user_managers) =
          lookupStr (hash s2) st.user_managers := by
        simp only [lookupStr]
        rw [if_neg (fun he => hh he.symm)]
      cases hl2 : lookupStr (hash s2) st.user_managers with
      | some m2x =>
        have hl2x : lookupStr (hash s2)
            ((hash s1, (⟨st.next_id, some s1⟩ : FileSearchManager)) :: st.user_managers) =
            some m2x := hstep.trans hl2
        rw [gocm_hit hash ctorErr _ s2 m2x hl2x] at h2
        injection h2 with h2a h2b
        injection h2a with h2c
        subst h2c
        have hmid : m2x.mid < st.next_id := hbound (hash s2, m2x) (lookupStr_mem hl2)
        intro he
        rw [← he] at hmid
        simp at hmid
      | none =>
        cases hc2 : ctorErr s2 with
        | none =>
          have hl2x : lookupStr (hash s2)
              ((hash s1, (⟨st.next_id, some s1⟩ : FileSearchManager)) :: st.user_managers) =
              none := hstep.trans hl2
          rw [gocm_miss_ok hash ctorErr _ s2 hl2x hc2] at h2
          injection h2 with h2a h2b
          injection h2a with h2c
          subst h2c
          intro he
          have hcontra : st.next_id = st.next_id + 1 :=
            congrArg FileSearchManager.mid he
          simp at hcontra
        | some e =>
          have hl2x : lookupStr (hash s2)
              ((hash s1, (⟨st.next_id, some s1⟩ : FileSearchManager)) :: st.user_managers) =
              none := hstep.trans hl2
          rw [gocm_miss_err hash ctorErr _ s2 e hl2x hc2] at h2
          exact absurd h2 (by simp)

/-- Claim C9: when construction of a new per-credential context fails, the
router reports the invalid-key error to the caller and returns the globals
exactly unchanged — no cache entry is added under the hash of that secret — and a
later request whose secret constructs (or is already cached) still
succeeds on that same state. -/
theorem c9_ctor_failure (hash : String → String)
    (ctorErr : String → Option String) (st : AppState) (s s2 msg : String)
    (hl : lookupStr (hash s) st.user_managers = none)
    (hc : ctorErr s = some msg) :
    _get_or_create_manager hash ctorErr st (some s) =
      (.error ⟨400, "無效的 API Key: " ++ msg⟩, st) ∧
    (ctorErr s2 = none → ∃ m2 st2,
      _get_or_create_manager hash ctorErr st (some s2) = (.ok m2, st2)) := by
  refine ⟨gocm_miss_err hash ctorErr st s msg hl hc, ?_⟩
  intro hc2
  cases hl2 : lookupStr (hash s2) st.user_managers with
  | some m2 => exact ⟨m2, st, gocm_hit hash ctorErr st s2 m2 hl2⟩
  | none => exact ⟨_, _, gocm_miss_ok hash ctorErr st s2 hl2 hc2⟩

/-- Constructor-failure model used by the C9 witness: the secret `bad`
cannot construct a manager, every other secret can. -/
def ctorW9 : String → Option String := fun k => if k == "bad" then some "boom" else none

/-- Witness for C9 at a concrete state: the failing secret yields the 400
error with the cache untouched, and a different secret then succeeds. -/
theorem c9_ctor_failure_witness :
    _get_or_create_manager id ctorW9 ⟨none, [], 0⟩ (some "bad") =
      (.error ⟨400, "無效的 API Key: " ++ "boom"⟩, ⟨none, [], 0⟩) ∧
    (∃ m2 st2, _get_or_create_manager id ctorW9 ⟨none, [], 0⟩ (some "good") =
      (.ok m2, st2)) := by
  have h := c9_ctor_failure id ctorW9 ⟨none, [], 0⟩ "bad" "good" "boom"
    (by decide) (by decide)
  exact ⟨h.1, h.2 (by decide)⟩

/-- State after the first witness call of C2: the context `⟨1, some "a"⟩`
is cached under the (identity) hash of `"a"`. -/
def stW2a : AppState := ⟨some ⟨0, none⟩, [("a", ⟨1, some "a"⟩)], 2⟩

/-- Witness for C2 at concrete states: repeating the call for secret `"a"`
returns the identical cached context and leaves the globals unchanged, and
the context later created for secret `"b"` is a different object. -/
theorem c2_session_identity_witness :
    _get_or_create_manager id (fun _ => none) stW2a (some "a") =
      (.ok ⟨1, some "a"⟩, stW2a) ∧
    (⟨1, some "a"⟩ : FileSearchManager) ≠ ⟨2, some "b"⟩ := by
  have h := c2_session_identity id (fun _ => none) ⟨some ⟨0, none⟩, [], 1⟩
    "a" "b" ⟨1, some "a"⟩ stW2a ⟨by simp, by simp⟩ (fun a b e => e) (by rfl)
  refine ⟨h.2.1, h.2.2 (by decide) ⟨2, some "b"⟩
    ⟨some ⟨0, none⟩, [("b", ⟨2, some "b"⟩), ("a", ⟨1, some "a"⟩)], 3⟩ (by rfl)⟩

/-- Claim C7: a credential whose selector index is out of range of the
current store prompt list is skipped — resolution falls through to the
active prompt of the store (or none, via the `Option.map`) — and an in-range
index is evaluated against whatever the current prompt list is at
resolution time: under any registry state in which the index is in range,
the prompt held by the list of that state is returned. -/
theorem c7_selector_range (pm : PromptManager) (info : APIKeyRecord)
    (store : String) (messages : List OpenAIChatMessage) (idx : Int)
    (hnosys : messages.filter (fun m => m.role == "system") = [])
    (hsel : info.prompt_index = some idx) :
    (¬(0 ≤ idx ∧ idx < ((pm.prompts store).length : Int)) →
      _get_system_prompt (some pm) (some info) store messages =
        (pm.active store).map (fun p => p.content)) ∧
    (∀ (pm2 : PromptManager)
       (hR : 0 ≤ idx ∧ idx.toNat < (pm2.prompts store).length),
      _get_system_prompt (some pm2) (some info) store messages =
        some (((pm2.prompts store).get ⟨idx.toNat, hR.2⟩).content)) := by
  have hnone : (messages.filter (fun m => m.role == "system")).getLast? = none := by
    rw [hnosys]; rfl
  constructor
  · intro hout
    unfold _get_system_prompt
    rw [hnone]
    dsimp only
    rw [hsel]
    dsimp only
    rw [if_neg hout]
  · intro pm2 hR
    have hlt : idx < ((pm2.prompts store).length : Int) := by
      rcases hR with ⟨h0, hn⟩; omega
    unfold _get_system_prompt
    rw [hnone]
    dsimp only
    rw [hsel]
    dsimp only
    rw [if_pos ⟨hR.1, hlt⟩, List.getElem?_eq_getElem hR.2]
    simp

/-- Registry state for the C7 witness in which index 5 is out of range:
one prompt, with an active prompt set. -/
def pmW7a : PromptManager :=
  ⟨fun _ => [⟨"p0", "s", "n0", "A"⟩], fun _ => some ⟨"pa", "s", "na", "act"⟩⟩

/-- Registry state for the C7 witness in which index 5 is in range: six
prompts, no active prompt. -/
def pmW7b : PromptManager :=
  ⟨fun _ => [⟨"q0", "s", "m0", "B0"⟩, ⟨"q1", "s", "m1", "B1"⟩,
    ⟨"q2", "s", "m2", "B2"⟩, ⟨"q3", "s", "m3", "B3"⟩,
    ⟨"q4", "s", "m4", "B4"⟩, ⟨"q5", "s", "m5", "B5"⟩], fun _ => none⟩

/-- A credential pinned to prompt index 5 for the C7 witness. -/
def infoW7 : APIKeyRecord := ⟨"k", "h", "pfx", "n", "s", some 5, "t", none⟩

/-- Witness for C7: the same index-5 credential resolves to the active
prompt while the store holds one prompt, and to the sixth prompt of the
current list once the list has six entries. -/
theorem c7_selector_range_witness :
    _get_system_prompt (some pmW7a) (some infoW7) "s" [] = some "act" ∧
    _get_system_prompt (some pmW7b) (some infoW7) "s" [] = some "B5" := by
  have h := c7_selector_range pmW7a infoW7 "s" [] 5 (by decide) (by decide)
  constructor
  · exact (h.1 (by decide)).trans (by decide)
  · exact (h.2 pmW7b ⟨by decide, by decide⟩).trans (by decide)

/-- The answer text of a completions response: content of its first
first choice. -/
def answerText (resp : OpenAIChatResponse) : Option String :=
  (resp.choices.head?).map (fun c => c.message.content)

/-- Inversion of the pre-provider part of the completions handler: a
successful plan pins down every intermediate of the straight-line code —
the default manager used, the verified credential, the last user message,
the model/warning pair, and the exact provider call. -/
theorem completions_plan_inv (env : CompletionsEnv) (req : OpenAIChatRequest)
    (hdr : String) (call : QueryCall) (w : Option String) (mn : String)
    (hplan : completions_plan env req hdr = .ok (call, w, mn)) :
    ∃ mgr akm token info lm,
      env.st.manager = some mgr ∧
      env.api_key_manager = some akm ∧
      _extract_bearer_token hdr = some token ∧
      akm.verify_key token = some info ∧
      (req.messages.filter (fun m => m.role == "user")).getLast? = some lm ∧
      (mn, w) = (if req.model ∈ SUPPORTED_MODELS then (req.model, none)
        else (env.default_model,
          some (substitutionWarning req.model env.default_model))) ∧
      call = ⟨mgr.mid, info.store_name, lm.content,
        _get_system_prompt env.prompt_manager (some info) info.store_name
          req.messages,
        some mn⟩ := by
  unfold completions_plan at hplan
  split at hplan
  · exact absurd hplan (by simp)
  · rename_i mgr hm
    split at hplan
    · exact absurd hplan (by simp)
    · rename_i akm hak
      split at hplan
      · exact absurd hplan (by simp)
      · rename_i token htk
        split at hplan
        · exact absurd hplan (by simp)
        · rename_i info hv
          split at hplan
          · exact absurd hplan (by simp)
          · rename_i lm hlm
            by_cases hin : req.model ∈ SUPPORTED_MODELS
            · rw [if_pos hin] at hplan
              injection hplan with h1
              injection h1 with hcall h2
              injection h2 with hw hmn
              refine ⟨mgr, akm, token, info, lm, hm, hak, htk, hv, hlm, ?_, ?_⟩
              · rw [if_pos hin, ← hmn, ← hw]
              · rw [← hmn, ← hcall]
            · rw [if_neg hin] at hplan
              injection hplan with h1
              injection h1 with hcall h2
              injection h2 with hw hmn
              refine ⟨mgr, akm, token, info, lm, hm, hak, htk, hv, hlm, ?_, ?_⟩
              · rw [if_neg hin, ← hmn, ← hw]
              · rw [← hmn, ← hcall]

/-- Composition: a successful plan followed by a successful provider call
yields exactly the envelope the handler builds, warning prefix included. -/
theorem openai_chat_completions_of_plan (env : CompletionsEnv)
    (req : OpenAIChatRequest) (hdr : String) (call : QueryCall)
    (w : Option String) (mn text : String)
    (hplan : completions_plan env req hdr = .ok (call, w, mn))
    (hprov : env.provider call = .ok text) :
    openai_chat_completions env req hdr =
      .ok ⟨"chatcmpl-" ++ strTakeChars env.uuid_hex 8, "chat.completion",
        env.now, mn,
        [⟨0, ⟨"assistant", warnPrefixed w text⟩, "stop"⟩],
        ⟨0, 0, 0⟩⟩ := by
  unfold openai_chat_completions
  rw [hplan]
  dsimp only
  rw [hprov]

/-- Composition: a successful plan followed by a provider exception yields
the generic 500 of the blanket `except Exception` clause of the handler,
whatever kind of exception it was. -/
theorem openai_chat_completions_of_raise (env : CompletionsEnv)
    (req : OpenAIChatRequest) (hdr : String) (call : QueryCall)
    (w : Option String) (mn : String) (e : PyExc)
    (hplan : completions_plan env req hdr = .ok (call, w, mn))
    (hprov : env.provider call = .raises e) :
    openai_chat_completions env req hdr = .error ⟨500, e.text⟩ := by
  unfold openai_chat_completions
  rw [hplan]
  dsimp only
  rw [hprov]

/-- Credential record for the C5 fixtures: the issued key `sk-1`, bound to
store `s1`, no prompt selector. -/
def infoC5 : APIKeyRecord := ⟨"k1", "h-sk-1", "sk-1", "demo", "s1", none, "t0", none⟩

/-- Credential store for the C5 fixtures, with a prefix-marking hash. -/
def akmC5 : APIKeyManager := ⟨[infoC5], fun s => "h-" ++ s⟩

/-- Router globals for the C5 counterexample: the shared default context
has identity tag 0, and a distinct per-credential context with identity
tag 7 is cached under the very hash the Session Router would use for the
secret `sk-1`. -/
def stC5 : AppState := ⟨some ⟨0, none⟩, [("h-sk-1", ⟨7, some "sk-1"⟩)], 8⟩

/-- Request environment for the C5 counterexample. -/
def envC5 : CompletionsEnv :=
  ⟨stC5, some akmC5, none, "gemini-2.5-flash-lite", "cafebabe0000", 1700000000,
   fun _ => .ok "ans"⟩

/-- Completions request for the C5 counterexample. -/
def reqC5 : OpenAIChatRequest := ⟨"gemini-2.5-flash-lite", [⟨"user", "hi"⟩]⟩

/-- Claim C5 (counterexample): a completions request authenticated with the
issued key `sk-1` plans its provider query on the shared default context
(identity tag 0) even though the session cache holds a distinct context
(identity tag 7) under the hash of that credential — the query does not run on
a context selected for the credential. -/
theorem c5_counterexample :
    completions_plan envC5 reqC5 "Bearer sk-1" =
      .ok (⟨0, "s1", "hi", none, some "gemini-2.5-flash-lite"⟩, none,
        "gemini-2.5-flash-lite") ∧
    lookupStr (akmC5.hash "sk-1") stC5.user_managers = some ⟨7, some "sk-1"⟩ ∧
    (7 : Nat) ≠ 0 := by
  refine ⟨by rfl, by decide, by decide⟩

/-- Claim C5 (amended): the completions endpoint always executes its query
on the shared default context — the provider call of every successful plan
carries the identity of the default manager — while it is the other endpoints
(here `/api/query`) whose query runs on the context the Session Router
selected for the `x-gemini-api-key` header. -/
theorem c5_amended :
    (∀ (env : CompletionsEnv) (req : OpenAIChatRequest) (hdr : String)
       (call : QueryCall) (w : Option String) (mn : String),
      completions_plan env req hdr = .ok (call, w, mn) →
      ∃ mgr, env.st.manager = some mgr ∧ call.managerId = mgr.mid) ∧
    (∀ (hash : String → String) (ctorErr : String → Option String)
       (st : AppState) (key : Option String) (store q : String)
       (call : QueryCall) (st1 : AppState),
      query_endpoint_call hash ctorErr st key store q = (.ok call, st1) →
      ∃ mgr, _get_or_create_manager hash ctorErr st key = (.ok mgr, st1) ∧
        call.managerId = mgr.mid) := by
  constructor
  · intro env req hdr call w mn hplan
    obtain ⟨mgr, akm, token, info, lm, hm, hak, htk, hv, hlm, hmw, hcall⟩ :=
      completions_plan_inv env req hdr call w mn hplan
    exact ⟨mgr, hm, by rw [hcall]⟩
  · intro hash ctorErr st key store q call st1 h
    unfold query_endpoint_call at h
    split at h
    · rename_i e st1x heq
      exact absurd h (by simp)
    · rename_i mgr st1x heq
      injection h with ha hb
      injection ha with hc
      refine ⟨mgr, ?_, ?_⟩
      · rw [heq, hb]
      · rw [← hc]

/-- Witness for the amended C5 at concrete inputs: the counterexample
environment plans its call on the default manager (tag 0), and a
`/api/query` call that misses the cache targets the freshly routed
manager (tag 4). -/
theorem c5_amended_witness :
    (∃ mgr, envC5.st.manager = some mgr ∧
      (⟨0, "s1", "hi", none, some "gemini-2.5-flash-lite"⟩ : QueryCall).managerId
        = mgr.mid) ∧
    (∃ mgr, _get_or_create_manager id (fun _ => none)
        ⟨some ⟨3, none⟩, [], 4⟩ (some "g1") =
        (.ok mgr, ⟨some ⟨3, none⟩, [("g1", ⟨4, some "g1"⟩)], 5⟩) ∧
      (⟨4, "s", "q", none, none⟩ : QueryCall).managerId = mgr.mid) := by
  constructor
  · exact c5_amended.1 envC5 reqC5 "Bearer sk-1"
      ⟨0, "s1", "hi", none, some "gemini-2.5-flash-lite"⟩ none
      "gemini-2.5-flash-lite" (by rfl)
  · exact c5_amended.2 id (fun _ => none) ⟨some ⟨3, none⟩, [], 4⟩ (some "g1")
      "s" "q" ⟨4, "s", "q", none, none⟩
      ⟨some ⟨3, none⟩, [("g1", ⟨4, some "g1"⟩)], 5⟩ (by rfl)

/-- Credential record for the C4 fixtures. -/
def infoC4 : APIKeyRecord := ⟨"k1", "h-sk-1", "sk-1", "demo", "s1", none, "t0", none⟩

/-- Credential store for the C4 fixtures. -/
def akmC4 : APIKeyManager := ⟨[infoC4], fun s => "h-" ++ s⟩

/-- Request environment for the C4 counterexample: the collaborator
reports a rate limit (a `ClientError` whose text is `429`) on every call. -/
def envC4 : CompletionsEnv :=
  ⟨⟨some ⟨0, none⟩, [], 1⟩, some akmC4, none, "gemini-2.5-flash-lite",
   "deadbeefcafe", 1700000000, fun _ => .raises (.clientError "429")⟩

/-- Completions request for the C4 counterexample. -/
def reqC4 : OpenAIChatRequest := ⟨"gemini-2.5-flash-lite", [⟨"user", "hi"⟩]⟩

/-- Claim C4 (counterexample): the exception text `429` is classified as a
rate-limit condition by the app-level handler itself, yet the completions
endpoint answers that very condition with status 500, not 429 — its
blanket `except Exception` hides the rate limit. -/
theorem c4_counterexample :
    (gemini_client_error_response "429").status = 429 ∧
    openai_chat_completions envC4 reqC4 "Bearer sk-1" = .error ⟨500, "429"⟩ ∧
    (500 : Nat) ≠ 429 := by
  refine ⟨by decide, by rfl, by decide⟩

/-- Claim C4 (amended): a rate-limit condition from the collaborator is
surfaced as 429 on the endpoints that let the provider exception reach the
app-level `ClientError` handler (here `/api/query`), but the completions
endpoint converts every provider exception — rate limits included — into
a 500. -/
theorem c4_amended :
    (∀ (hash : String → String) (ctorErr : String → Option String)
       (provider : QueryCall → QueryOutcome) (st : AppState)
       (key : Option String) (store q : String) (mgr : FileSearchManager)
       (st1 : AppState) (msg : String),
      _get_or_create_manager hash ctorErr st key = (.ok mgr, st1) →
      provider ⟨mgr.mid, store, q, none, none⟩ = .raises (.clientError msg) →
      (strContains msg "RESOURCE_EXHAUSTED" || strContains msg "429") = true →
      query_endpoint hash ctorErr provider st key store q =
        (.error ⟨429, "目前使用量已達上限 (429)，請稍後再試。"⟩, st1)) ∧
    (∀ (env : CompletionsEnv) (req : OpenAIChatRequest) (hdr : String)
       (call : QueryCall) (w : Option String) (mn : String) (e : PyExc),
      completions_plan env req hdr = .ok (call, w, mn) →
      env.provider call = .raises e →
      openai_chat_completions env req hdr = .error ⟨500, e.text⟩) := by
  constructor
  · intro hash ctorErr provider st key store q mgr st1 msg hg hp hrate
    unfold query_endpoint query_endpoint_call
    rw [hg]
    dsimp only
    rw [hp]
    dsimp only
    unfold gemini_client_error_response
    rw [if_pos hrate]
  · intro env req hdr call w mn e hplan hp
    exact openai_chat_completions_of_raise env req hdr call w mn e hplan hp

/-- Witness for the amended C4 at concrete inputs: `/api/query` surfaces
the rate-limited call as 429, and the completions endpoint surfaces the
same condition as 500. -/
theorem c4_amended_witness :
    query_endpoint id (fun _ => none) (fun _ => .raises (.clientError "429"))
      ⟨some ⟨0, none⟩, [], 1⟩ none "s" "hi" =
      (.error ⟨429, "目前使用量已達上限 (429)，請稍後再試。"⟩,
       ⟨some ⟨0, none⟩, [], 1⟩) ∧
    openai_chat_completions envC4 reqC4 "Bearer sk-1" = .error ⟨500, "429"⟩ := by
  constructor
  · exact c4_amended.1 id (fun _ => none) (fun _ => .raises (.clientError "429"))
      ⟨some ⟨0, none⟩, [], 1⟩ none "s" "hi" ⟨0, none⟩ ⟨some ⟨0, none⟩, [], 1⟩
      "429" (by rfl) (by rfl) (by decide)
  · exact c4_amended.2 envC4 reqC4 "Bearer sk-1"
      ⟨0, "s1", "hi", none, some "gemini-2.5-flash-lite"⟩ none
      "gemini-2.5-flash-lite" (.clientError "429") (by rfl) (by rfl)

/-- Claim C6: a completions request whose model is in the allow-list is
served as requested with no warning and the provider text untouched, and
one whose model is not in the allow-list is served on the default model
with the substitution warning prefixed to the answer text — the caller can
always detect the substitution. -/
theorem c6_model_substitution (env : CompletionsEnv) (req : OpenAIChatRequest)
    (hdr : String) (call : QueryCall) (w : Option String) (mn text : String)
    (resp : OpenAIChatResponse)
    (hplan : completions_plan env req hdr = .ok (call, w, mn))
    (hprov : env.provider call = .ok text)
    (hresp : openai_chat_completions env req hdr = .ok resp) :
    (req.model ∈ SUPPORTED_MODELS →
      w = none ∧ mn = req.model ∧ call.model = some req.model ∧
      answerText resp = some text) ∧
    (req.model ∉ SUPPORTED_MODELS →
      mn = env.default_model ∧
      w = some (substitutionWarning req.model env.default_model) ∧
      answerText resp = some ("⚠️ " ++
        substitutionWarning req.model env.default_model ++ "\n\n" ++ text)) := by
  have hok := openai_chat_completions_of_plan env req hdr call w mn text hplan hprov
  rw [hresp] at hok
  injection hok with hr
  obtain ⟨mgr, akm, token, info, lm, hm, hak, htk, hv, hlm, hmw, hcall⟩ :=
    completions_plan_inv env req hdr call w mn hplan
  constructor
  · intro hin
    rw [if_pos hin] at hmw
    injection hmw with hmn hw
    refine ⟨hw, hmn, ?_, ?_⟩
    · rw [hcall, hmn]
    · rw [hr, hw]
      rfl
  · intro hout
    rw [if_neg hout] at hmw
    injection hmw with hmn hw
    refine ⟨hmn, hw, ?_⟩
    rw [hr, hw]
    rfl

/-- Claim C8: the question sent to the provider by a completions request
is the content of the last user-authored message, and the response
envelope carries the generated id, the creation timestamp and a present
usage object whose three token counters are all zero. -/
theorem c8_envelope (env : CompletionsEnv) (req : OpenAIChatRequest)
    (hdr : String) (call : QueryCall) (w : Option String) (mn text : String)
    (resp : OpenAIChatResponse) (lm : OpenAIChatMessage)
    (hplan : completions_plan env req hdr = .ok (call, w, mn))
    (hprov : env.provider call = .ok text)
    (hresp : openai_chat_completions env req hdr = .ok resp)
    (hlm : (req.messages.filter (fun m => m.role == "user")).getLast? = some lm) :
    call.question = lm.content ∧
    resp.id = "chatcmpl-" ++ strTakeChars env.uuid_hex 8 ∧
    resp.object = "chat.completion" ∧
    resp.created = env.now ∧
    resp.usage = ⟨0, 0, 0⟩ := by
  have hok := openai_chat_completions_of_plan env req hdr call w mn text hplan hprov
  rw [hresp] at hok
  injection hok with hr
  obtain ⟨mgr, akm, token, info, lm0, hm, hak, htk, hv, hlm0, hmw, hcall⟩ :=
    completions_plan_inv env req hdr call w mn hplan
  have hlme : lm0 = lm := by
    have := hlm0.symm.trans hlm
    injection this
  refine ⟨?_, by rw [hr], by rw [hr], by rw [hr], by rw [hr]⟩
  rw [hcall, hlme]

/-- Claim C10: whether or not a substitution happened, the `model` field of
the response envelope reports the model actually used — the requested name
when it is supported, the default model when it is not. -/
theorem c10_model_field (env : CompletionsEnv) (req : OpenAIChatRequest)
    (hdr : String) (call : QueryCall) (w : Option String) (mn text : String)
    (resp : OpenAIChatResponse)
    (hplan : completions_plan env req hdr = .ok (call, w, mn))
    (hprov : env.provider call = .ok text)
    (hresp : openai_chat_completions env req hdr = .ok resp) :
    resp.model = mn ∧
    (req.model ∈ SUPPORTED_MODELS → resp.model = req.model) ∧
    (req.model ∉ SUPPORTED_MODELS → resp.model = env.default_model) := by
  have hok := openai_chat_completions_of_plan env req hdr call w mn text hplan hprov
  rw [hresp] at hok
  injection hok with hr
  obtain ⟨mgr, akm, token, info, lm, hm, hak, htk, hv, hlm, hmw, hcall⟩ :=
    completions_plan_inv env req hdr call w mn hplan
  refine ⟨by rw [hr], ?_, ?_⟩
  · intro hin
    rw [if_pos hin] at hmw
    injection hmw with hmn hw
    rw [hr]
    exact hmn
  · intro hout
    rw [if_neg hout] at hmw
    injection hmw with hmn hw
    rw [hr]
    exact hmn

/-- Credential record for the C6 fixtures. -/
def infoC6 : APIKeyRecord := ⟨"k6", "h-sk-6", "sk-6", "w", "s6", none, "t", none⟩

/-- Credential store for the C6 fixtures. -/
def akmC6 : APIKeyManager := ⟨[infoC6], fun s => "h-" ++ s⟩

/-- Request environment for the C6 witness. -/
def envC6 : CompletionsEnv :=
  ⟨⟨some ⟨0, none⟩, [], 1⟩, some akmC6, none, "gemini-2.5-flash-lite",
   "0123456789abcdef", 111, fun _ => .ok "ans"⟩

/-- A request for a supported model (C6 witness). -/
def reqC6a : OpenAIChatRequest := ⟨"gemini-2.5-flash-lite", [⟨"user", "q"⟩]⟩

/-- A request for an unsupported model (C6 witness). -/
def reqC6b : OpenAIChatRequest := ⟨"gpt-4", [⟨"user", "q"⟩]⟩

/-- Envelope the handler produces for `reqC6a` (no substitution). -/
def respC6a : OpenAIChatResponse :=
  ⟨"chatcmpl-01234567", "chat.completion", 111, "gemini-2.5-flash-lite",
   [⟨0, ⟨"assistant", "ans"⟩, "stop"⟩], ⟨0, 0, 0⟩⟩

/-- Envelope the handler produces for `reqC6b` (substitution with warning
prefix). -/
def respC6b : OpenAIChatResponse :=
  ⟨"chatcmpl-01234567", "chat.completion", 111, "gemini-2.5-flash-lite",
   [⟨0, ⟨"assistant", "⚠️ " ++
     substitutionWarning "gpt-4" "gemini-2.5-flash-lite" ++ "\n\n" ++ "ans"⟩,
     "stop"⟩], ⟨0, 0, 0⟩⟩

/-- Witness for C6 at concrete requests: the answer to the supported request is
the provider text untouched, the answer to the unsupported request starts with
the warning prefix. -/
theorem c6_model_substitution_witness :
    answerText respC6a = some "ans" ∧
    answerText respC6b = some ("⚠️ " ++
      substitutionWarning "gpt-4" "gemini-2.5-flash-lite" ++ "\n\n" ++ "ans") := by
  have ha := c6_model_substitution envC6 reqC6a "Bearer sk-6"
    ⟨0, "s6", "q", none, some "gemini-2.5-flash-lite"⟩ none
    "gemini-2.5-flash-lite" "ans" respC6a (by rfl) (by rfl) (by rfl)
  have hb := c6_model_substitution envC6 reqC6b "Bearer sk-6"
    ⟨0, "s6", "q", none, some "gemini-2.5-flash-lite"⟩
    (some (substitutionWarning "gpt-4" "gemini-2.5-flash-lite"))
    "gemini-2.5-flash-lite" "ans" respC6b (by rfl) (by rfl) (by rfl)
  exact ⟨(ha.1 (by decide)).2.2.2, (hb.2 (by decide)).2.2⟩

/-- Credential record for the C8 fixtures. -/
def infoC8 : APIKeyRecord := ⟨"k8", "h-sk-8", "sk-8", "w", "s8", none, "t", none⟩

/-- Credential store for the C8 fixtures. -/
def akmC8 : APIKeyManager := ⟨[infoC8], fun s => "h-" ++ s⟩

/-- Request environment for the C8 witness. -/
def envC8 : CompletionsEnv :=
  ⟨⟨some ⟨0, none⟩, [], 1⟩, some akmC8, none, "gemini-2.5-flash-lite",
   "fedcba9876543210", 222, fun _ => .ok "a8"⟩

/-- A three-message conversation whose last user-authored message is
`q2` (C8 witness). -/
def reqC8 : OpenAIChatRequest :=
  ⟨"gemini-2.5-flash-lite",
   [⟨"user", "first"⟩, ⟨"assistant", "x"⟩, ⟨"user", "q2"⟩]⟩

/-- Envelope the handler produces for `reqC8`. -/
def respC8 : OpenAIChatResponse :=
  ⟨"chatcmpl-fedcba98", "chat.completion", 222, "gemini-2.5-flash-lite",
   [⟨0, ⟨"assistant", "a8"⟩, "stop"⟩], ⟨0, 0, 0⟩⟩

/-- Witness for C8 at a concrete conversation: the provider question is the
last user message `q2`, and the envelope fields are the generated id, the
timestamp, and the all-zero usage object. -/
theorem c8_envelope_witness :
    (⟨0, "s8", "q2", none, some "gemini-2.5-flash-lite"⟩ : QueryCall).question =
      (⟨"user", "q2"⟩ : OpenAIChatMessage).content ∧
    respC8.id = "chatcmpl-" ++ strTakeChars "fedcba9876543210" 8 ∧
    respC8.object = "chat.completion" ∧
    respC8.created = 222 ∧
    respC8.usage = ⟨0, 0, 0⟩ := by
  exact c8_envelope envC8 reqC8 "Bearer sk-8"
    ⟨0, "s8", "q2", none, some "gemini-2.5-flash-lite"⟩ none
    "gemini-2.5-flash-lite" "a8" respC8 ⟨"user", "q2"⟩
    (by rfl) (by rfl) (by rfl) (by rfl)

/-- Credential record for the C10 fixtures. -/
def infoC10 : APIKeyRecord := ⟨"ka", "h-sk-a", "sk-a", "w", "sa", none, "t", none⟩

/-- Credential store for the C10 fixtures. -/
def akmC10 : APIKeyManager := ⟨[infoC10], fun s => "h-" ++ s⟩

/-- Request environment for the C10 witness; the configured default model
differs from the model the C10 requests ask for. -/
def envC10 : CompletionsEnv :=
  ⟨⟨some ⟨0, none⟩, [], 1⟩, some akmC10, none, "gemini-3-pro-preview",
   "00112233445566", 333, fun _ => .ok "aa"⟩

/-- A request for a supported model (C10 witness). -/
def reqC10a : OpenAIChatRequest := ⟨"gemini-2.5-flash-lite", [⟨"user", "q"⟩]⟩

/-- A request for an unsupported model (C10 witness). -/
def reqC10b : OpenAIChatRequest := ⟨"gpt-4", [⟨"user", "q"⟩]⟩

/-- Envelope for `reqC10a`: the model field echoes the requested model. -/
def respC10a : OpenAIChatResponse :=
  ⟨"chatcmpl-00112233", "chat.completion", 333, "gemini-2.5-flash-lite",
   [⟨0, ⟨"assistant", "aa"⟩, "stop"⟩], ⟨0, 0, 0⟩⟩

/-- Envelope for `reqC10b`: the model field reports the substituted
default. -/
def respC10b : OpenAIChatResponse :=
  ⟨"chatcmpl-00112233", "chat.completion", 333, "gemini-3-pro-preview",
   [⟨0, ⟨"assistant", "⚠️ " ++
     substitutionWarning "gpt-4" "gemini-3-pro-preview" ++ "\n\n" ++ "aa"⟩,
     "stop"⟩], ⟨0, 0, 0⟩⟩

/-- Witness for C10 at concrete requests: the envelope of a supported request
echoes the requested model, that of an unsupported one reports the default. -/
theorem c10_model_field_witness :
    respC10a.model = "gemini-2.5-flash-lite" ∧
    respC10b.model = "gemini-3-pro-preview" := by
  have ha := c10_model_field envC10 reqC10a "Bearer sk-a"
    ⟨0, "sa", "q", none, some "gemini-2.5-flash-lite"⟩ none
    "gemini-2.5-flash-lite" "aa" respC10a (by rfl) (by rfl) (by rfl)
  have hb := c10_model_field envC10 reqC10b "Bearer sk-a"
    ⟨0, "sa", "q", none, some "gemini-3-pro-preview"⟩
    (some (substitutionWarning "gpt-4" "gemini-3-pro-preview"))
    "gemini-3-pro-preview" "aa" respC10b (by rfl) (by rfl) (by rfl)
  exact ⟨ha.2.1 (by decide), hb.2.2 (by decide)⟩

/-- Claim C3: the response of the create operation carries the raw secret under
its `key` field — the one time it is returned — while every entry of the
listing and every get response contain neither a `key` nor a `key_hash`
field. -/
theorem c3_secret_exposure (akm : APIKeyManager) (store_f : Option String)
    (nm sn : String) (pi : Option Int) (nid raw cat key_id : String) :
    ("key", JVal.str raw) ∈ (create_api_key akm nm sn pi nid raw cat).1 ∧
    (∀ fields ∈ list_api_keys akm store_f,
      "key" ∉ fields.map Prod.fst ∧ "key_hash" ∉ fields.map Prod.fst) ∧
    (∀ fields, get_api_key akm key_id = .ok fields →
      "key" ∉ fields.map Prod.fst ∧ "key_hash" ∉ fields.map Prod.fst) := by
  refine ⟨?_, ?_, ?_⟩
  · simp [create_api_key, APIKeyManager.create_key]
  · intro fields hf
    unfold list_api_keys at hf
    rcases List.mem_map.mp hf with ⟨k, hk, rfl⟩
    constructor <;> simp [keyListingFields]
  · intro fields hok
    unfold get_api_key at hok
    split at hok
    · exact absurd hok (by simp)
    · rename_i k hk
      injection hok with he
      rw [← he]
      constructor <;> simp [keyListingFields]

/-- A pre-existing credential record for the C3 witness. -/
def recW3 : APIKeyRecord := ⟨"id1", "HASH1", "sk-exist", "n1", "s3", none, "t", none⟩

/-- Credential store for the C3 witness. -/
def akmW3 : APIKeyManager := ⟨[recW3], fun s => "H-" ++ s⟩

/-- Witness for C3 at a concrete store: the create response carries the
fresh raw secret under `key`, and a listing entry exposes neither `key`
nor `key_hash`. -/
theorem c3_secret_exposure_witness :
    ("key", JVal.str "sk-new-secret") ∈
      (create_api_key akmW3 "n" "s3" none "id9" "sk-new-secret" "t1").1 ∧
    ("key" ∉ (keyListingFields recW3).map Prod.fst ∧
     "key_hash" ∉ (keyListingFields recW3).map Prod.fst) := by
  have h := c3_secret_exposure akmW3 none "n" "s3" none "id9" "sk-new-secret" "t1" "id1"
  exact ⟨h.1, h.2.1 (keyListingFields recW3) (by decide)⟩
